import Mathlib

/-!
Verification of the exception-serialization core of the VoltDB execution
engine (`src/ee/common/SerializableEEException.h`), shallowly embedded in
Lean 4.  C++ classes become structures, member functions become pure
functions on those structures, and the byte sink becomes an explicit
`List Nat` of output bytes.
-/

namespace voltdb

/-- The `VoltEEExceptionType` enum from `SerializableEEException.h`,
lines 38–44.  Each member is listed in source order. -/
inductive VoltEEExceptionType where
  | VOLT_EE_EXCEPTION_TYPE_NONE
  | VOLT_EE_EXCEPTION_TYPE_EEEXCEPTION
  | VOLT_EE_EXCEPTION_TYPE_SQL
  | VOLT_EE_EXCEPTION_TYPE_CONSTRAINT_VIOLATION
  | VOLT_EE_EXCEPTION_TYPE_INTERRUPT
deriving DecidableEq, Repr

open VoltEEExceptionType

/-- The ordinal explicitly assigned to each enum member in the source
(`= 0` through `= 4` on lines 39–43). -/
def ordinalOf : VoltEEExceptionType → Nat
  | VOLT_EE_EXCEPTION_TYPE_NONE => 0
  | VOLT_EE_EXCEPTION_TYPE_EEEXCEPTION => 1
  | VOLT_EE_EXCEPTION_TYPE_SQL => 2
  | VOLT_EE_EXCEPTION_TYPE_CONSTRAINT_VIOLATION => 3
  | VOLT_EE_EXCEPTION_TYPE_INTERRUPT => 4

/-- State of a `SerializableEEException` object: the `const`
discriminant `m_exceptionType` fixed at construction and the mutable
message string `m_message` (header lines 69–70). -/
structure SerializableEEException where
  m_exceptionType : VoltEEExceptionType
  m_message : String
deriving DecidableEq, Repr

/-- `SerializableEEException::message()` (line 62): the base
implementation returns the stored `m_message`.  `UnexpectedEEException`
does not override it. -/
def message (e : SerializableEEException) : String := e.m_message

/-- `SerializableEEException::getType()` (line 63): returns
`m_exceptionType`. -/
def getType (e : SerializableEEException) : VoltEEExceptionType :=
  e.m_exceptionType

/-- `SerializableEEException::appendContextToMessage(more)` (line 64):
`m_message += more`.  The mutation is embedded as returning the updated
object state. -/
def appendContextToMessage (e : SerializableEEException) (more : String) :
    SerializableEEException :=
  { e with m_message := e.m_message ++ more }

/-- The `UnexpectedEEException(message)` constructor (lines 76–78):
delegates to the protected base constructor with discriminant
`VOLT_EE_EXCEPTION_TYPE_EEEXCEPTION` and the message stored verbatim. -/
def UnexpectedEEException (m : String) : SerializableEEException :=
  ⟨VOLT_EE_EXCEPTION_TYPE_EEEXCEPTION, m⟩

/-- One byte of the output sink, written little-endian as four bytes.
Models the sink's fixed-width `write-int32` primitive
(`ReferenceSerializeOutput` is external to this core); a value wider
than 32 bits is truncated to its low 32 bits, as the C++ int conversion
does. -/
def writeInt32 (n : Nat) : List Nat :=
  [n % 256, n / 2 ^ 8 % 256, n / 2 ^ 16 % 256, n / 2 ^ 24 % 256]

/-- Text bytes of a message as written to the sink: one code unit per
character of the stored string. -/
def textBytes (m : String) : List Nat := m.data.map Char.toNat

/-- Decoder for a 4-byte little-endian field, used to state that the
serialized framing decodes back to the written values. -/
def decodeInt32 (bs : List Nat) : Nat :=
  match bs with
  | [b0, b1, b2, b3] => b0 + 2 ^ 8 * b1 + 2 ^ 16 * b2 + 2 ^ 24 * b3
  | _ => 0

/-- Modelled from the spec: the body of
`SerializableEEException::serialize(ReferenceSerializeOutput&)` lives in
`SerializableEEException.cpp`, which is not among the available sources;
only its declaration (header line 61) is.  Per the spec's wire format it
writes, in order, the discriminant ordinal as a fixed-width 32-bit
integer, the current `message()` as a length-prefixed text blob, and the
kind-specific trailer produced by the virtual `p_serialize` hook.
`serialize` itself is non-virtual, so the trailer is passed in as the
bytes `p_serialize` would emit for the concrete variant. -/
def serialize (e : SerializableEEException) (p_serializeBytes : List Nat) :
    List Nat :=
  writeInt32 (ordinalOf (getType e)) ++
    writeInt32 (message e).length ++ textBytes (message e) ++
    p_serializeBytes

/-- Modelled from the spec: the body of
`UnexpectedEEException::p_serialize` is declared on header line 80 but
defined in the missing `.cpp`; per the spec it writes nothing (an empty
trailer). -/
def UnexpectedEEException_p_serializeBytes : List Nat := []

/-- Serialization of an `UnexpectedEEException`: the common framing
followed by its (empty) `p_serialize` trailer. -/
def serializeUnexpected (m : String) : List Nat :=
  serialize (UnexpectedEEException m) UnexpectedEEException_p_serializeBytes

/-- The `throwSerializableEEException(...)` macro (header line 23):
`snprintf` renders the format string and arguments into a fixed
`char msg[8192]` buffer and the resulting text is thrown as an
`UnexpectedEEException`.  The rendering of the format string and
arguments is taken as an input string; `snprintf(msg, 8192, ...)`
stores at most 8191 characters of it plus the NUL terminator, never
writing past the buffer. -/
def throwSerializableEEException (rendered : String) :
    SerializableEEException :=
  UnexpectedEEException ⟨rendered.data.take 8191⟩

/-- The `throwUnexpectedEEExceptionStreamed(STREAMABLES)` macro (header
lines 25–28): the streamed values' text representations are
concatenated into an `ostringstream`, then the macro streams `" "`,
`__FILE__`, `":"`, `__LINE__` and `"\n"`, and the buffer's contents are
thrown as an `UnexpectedEEException`. -/
def throwUnexpectedEEExceptionStreamed (streamables : List String)
    (file : String) (line : Nat) : SerializableEEException :=
  UnexpectedEEException
    (String.join streamables ++ " " ++ file ++ ":" ++ Nat.repr line ++ "\n")

end voltdb

open voltdb VoltEEExceptionType

/-- C2: the exception discriminant enumeration assigns exactly ordinal 0
to `NONE`, 1 to `EEEXCEPTION` (generic/unexpected), 2 to `SQL`
(query-execution), 3 to `CONSTRAINT_VIOLATION` and 4 to `INTERRUPT`, and
these five are the only members of the closed set. -/
theorem discriminant_ordinals_closed :
    ordinalOf VOLT_EE_EXCEPTION_TYPE_NONE = 0 ∧
    ordinalOf VOLT_EE_EXCEPTION_TYPE_EEEXCEPTION = 1 ∧
    ordinalOf VOLT_EE_EXCEPTION_TYPE_SQL = 2 ∧
    ordinalOf VOLT_EE_EXCEPTION_TYPE_CONSTRAINT_VIOLATION = 3 ∧
    ordinalOf VOLT_EE_EXCEPTION_TYPE_INTERRUPT = 4 ∧
    ∀ t : VoltEEExceptionType,
      t = VOLT_EE_EXCEPTION_TYPE_NONE ∨
      t = VOLT_EE_EXCEPTION_TYPE_EEEXCEPTION ∨
      t = VOLT_EE_EXCEPTION_TYPE_SQL ∨
      t = VOLT_EE_EXCEPTION_TYPE_CONSTRAINT_VIOLATION ∨
      t = VOLT_EE_EXCEPTION_TYPE_INTERRUPT := by
  refine ⟨rfl, rfl, rfl, rfl, rfl, ?_⟩
  intro t
  cases t <;> simp

/-- C3: for every message text `m` (the empty string included),
`UnexpectedEEException m` has discriminant ordinal 1
(generic/unexpected) and `message` returns exactly `m`, unmodified; the
construction is a total function. -/
theorem UnexpectedEEException_construction (m : String) :
    getType (UnexpectedEEException m) = VOLT_EE_EXCEPTION_TYPE_EEEXCEPTION ∧
    ordinalOf (getType (UnexpectedEEException m)) = 1 ∧
    message (UnexpectedEEException m) = m :=
  ⟨rfl, rfl, rfl⟩

/-- C5: appending context `A` and then `B` leaves an instance in the
same state as appending `A ++ B` in one call, for every instance: the
append concatenates with no automatically inserted separator. -/
theorem appendContextToMessage_assoc (e : SerializableEEException)
    (A B : String) :
    appendContextToMessage (appendContextToMessage e A) B =
      appendContextToMessage e (A ++ B) := by
  simp [appendContextToMessage, String.append_assoc]

/-- C8: the discriminant returned by `getType` is the value fixed at
construction and is unchanged by `appendContextToMessage` (the only
mutating operation; `message()` and `serialize` are `const` and are
embedded as pure functions that leave the state untouched); in
particular an `UnexpectedEEException`'s discriminant is never the `NONE`
ordinal 0. -/
theorem getType_immutable (e : SerializableEEException) (more m : String) :
    getType (appendContextToMessage e more) = getType e ∧
    getType (UnexpectedEEException m) = VOLT_EE_EXCEPTION_TYPE_EEEXCEPTION ∧
    ordinalOf (getType (UnexpectedEEException m)) ≠ 0 := by
  exact ⟨rfl, rfl, Nat.one_ne_zero⟩

/-- Decoding a 4-byte little-endian field recovers the written value
modulo `2 ^ 32`. -/
theorem decodeInt32_writeInt32 (n : Nat) :
    decodeInt32 (writeInt32 n) = n % 2 ^ 32 := by
  simp only [decodeInt32, writeInt32]
  omega

/-- A `writeInt32` field is four bytes long. -/
theorem writeInt32_length (n : Nat) : (writeInt32 n).length = 4 := rfl

/-- The text blob of a message has exactly one byte per character. -/
theorem textBytes_length (m : String) : (textBytes m).length = m.length := by
  simp only [textBytes, List.length_map]
  rfl

/-- C1: for every discriminant `d`, message `m` and kind-specific
trailer, serializing writes, in order, the discriminant ordinal as a
fixed-width 32-bit integer (the first 4 bytes decode to `ordinalOf d`),
then the message as a length-prefixed text blob (the next 4 bytes decode
to `m.length`, followed by exactly `m`'s bytes), then the trailer
produced by `p_serialize`; `serialize` is not polymorphic, so this
framing is identical for every variant and trailer. -/
theorem serialize_framing (d : VoltEEExceptionType) (m : String)
    (trailer : List Nat) (h : m.length < 2 ^ 32) :
    decodeInt32 ((serialize ⟨d, m⟩ trailer).take 4) = ordinalOf d ∧
    decodeInt32 (((serialize ⟨d, m⟩ trailer).drop 4).take 4) = m.length ∧
    ((serialize ⟨d, m⟩ trailer).drop 8).take m.length = textBytes m ∧
    (serialize ⟨d, m⟩ trailer).drop (8 + m.length) = trailer := by
  have hs : serialize ⟨d, m⟩ trailer =
      writeInt32 (ordinalOf d) ++
        (writeInt32 m.length ++ (textBytes m ++ trailer)) := by
    simp [serialize, getType, message]
  have hd4 : (serialize ⟨d, m⟩ trailer).drop 4 =
      writeInt32 m.length ++ (textBytes m ++ trailer) := by
    rw [hs, ← writeInt32_length (ordinalOf d), List.drop_left]
  have hd8 : (serialize ⟨d, m⟩ trailer).drop 8 = textBytes m ++ trailer := by
    rw [show (8 : Nat) = 4 + 4 from rfl, ← List.drop_drop, hd4,
      ← writeInt32_length m.length, List.drop_left]
  have hord : ordinalOf d < 2 ^ 32 := by cases d <;> decide
  refine ⟨?_, ?_, ?_, ?_⟩
  · rw [hs, ← writeInt32_length (ordinalOf d), List.take_left,
      decodeInt32_writeInt32, Nat.mod_eq_of_lt hord]
  · rw [hd4, ← writeInt32_length m.length, List.take_left,
      decodeInt32_writeInt32, Nat.mod_eq_of_lt h]
  · rw [hd8, ← textBytes_length m, List.take_left]
  · rw [← List.drop_drop, hd8, ← textBytes_length m, List.drop_left]

/-- C9: the message before a call to `appendContextToMessage` is a
prefix of the message after the call: the stored message only grows
under the append operation. -/
theorem message_grows_under_append (e : SerializableEEException)
    (more : String) :
    ∃ t, message (appendContextToMessage e more) = message e ++ t :=
  ⟨more, rfl⟩

/-- Witness for C1: the framing theorem applied to the concrete
discriminant `SQL`, the message `"boom"` and a two-byte trailer. -/
theorem serialize_framing_witness :
    ("boom" : String).length < 2 ^ 32 ∧
    (decodeInt32 ((serialize ⟨VOLT_EE_EXCEPTION_TYPE_SQL, "boom"⟩
        [7, 9]).take 4) = ordinalOf VOLT_EE_EXCEPTION_TYPE_SQL ∧
      decodeInt32 (((serialize ⟨VOLT_EE_EXCEPTION_TYPE_SQL, "boom"⟩
        [7, 9]).drop 4).take 4) = ("boom" : String).length ∧
      ((serialize ⟨VOLT_EE_EXCEPTION_TYPE_SQL, "boom"⟩
        [7, 9]).drop 8).take ("boom" : String).length = textBytes "boom" ∧
      (serialize ⟨VOLT_EE_EXCEPTION_TYPE_SQL, "boom"⟩
        [7, 9]).drop (8 + ("boom" : String).length) = [7, 9]) :=
  ⟨by decide,
    serialize_framing VOLT_EE_EXCEPTION_TYPE_SQL "boom" [7, 9] (by decide)⟩

/-- C4: for every message `m`, serializing an `UnexpectedEEException`
writes a zero-length kind-specific trailer: the bytes written are
exactly the discriminant field and the length-prefixed message and
nothing more (8 framing bytes plus one byte per message character). -/
theorem unexpected_zero_trailer (m : String) :
    serializeUnexpected m =
      writeInt32 1 ++ writeInt32 m.length ++ textBytes m ∧
    (serializeUnexpected m).length = 8 + m.length := by
  constructor
  · simp [serializeUnexpected, serialize, UnexpectedEEException,
      UnexpectedEEException_p_serializeBytes, getType, message, ordinalOf]
  · simp only [serializeUnexpected, serialize, message, UnexpectedEEException,
      UnexpectedEEException_p_serializeBytes, List.append_nil,
      List.length_append, writeInt32_length, textBytes_length]

/-- C6: the formatted-raise helper renders into a fixed 8192-byte
buffer: for every rendered output, the raised exception is an
`UnexpectedEEException` whose message is the deterministic truncation of
the rendered text to the first 8191 characters (a prefix of the rendered
text, of length `min 8191 rendered.length < 8192`, so the buffer is
never overrun), and the raise is unconditional (a total function). -/
theorem formatted_raise_bounded (rendered : String) :
    getType (throwSerializableEEException rendered) =
      VOLT_EE_EXCEPTION_TYPE_EEEXCEPTION ∧
    (message (throwSerializableEEException rendered)).length =
      min 8191 rendered.length ∧
    (message (throwSerializableEEException rendered)).length < 8192 ∧
    (message (throwSerializableEEException rendered)).data <+:
      rendered.data ∧
    (message (throwSerializableEEException rendered)).data =
      rendered.data.take 8191 := by
  refine ⟨rfl, ?_, ?_, ?_, rfl⟩
  · show (rendered.data.take 8191).length = min 8191 rendered.length
    rw [List.length_take]
    rfl
  · show (rendered.data.take 8191).length < 8192
    rw [List.length_take]
    omega
  · exact List.take_prefix 8191 rendered.data

/-- C10: when the fully rendered output has length 8191 or more, the
formatted-raise helper's exception carries a message of length exactly
8191: the 8192-byte buffer holds the NUL terminator, so the usable
message bound is 8191 characters. -/
theorem formatted_raise_truncation_length (rendered : String)
    (h : 8191 ≤ rendered.length) :
    (message (throwSerializableEEException rendered)).length = 8191 := by
  show (rendered.data.take 8191).length = 8191
  rw [List.length_take]
  have hd : rendered.length = rendered.data.length := rfl
  omega

/-- Witness for C10: a rendered output of 8192 characters is truncated
to a message of exactly 8191 characters. -/
theorem formatted_raise_truncation_length_witness :
    8191 ≤ (String.mk (List.replicate 8192 'v')).length ∧
    (message (throwSerializableEEException
      (String.mk (List.replicate 8192 'v')))).length = 8191 :=
  ⟨by simp only [String.length, List.length_replicate]; omega,
    formatted_raise_truncation_length _
      (by simp only [String.length, List.length_replicate]; omega)⟩

/-- Counterexample for C7: the streamed-raise macro streams a trailing
`"\n"` after the origin tag, so with streamed values
`"bad plan id"`, `" "`, `7` and origin `plan.cc:88` the message is not
exactly `"bad plan id 7 plan.cc:88"`. -/
theorem streamed_raise_counterexample :
    message (throwUnexpectedEEExceptionStreamed
        ["bad plan id", " ", Nat.repr 7] "plan.cc" 88) ≠
      "bad plan id 7 plan.cc:88" := by
  decide

/-- C7 (amended): the streamed raise applied to the values
`["bad plan id", 7]` (with the single space emitted by the stream) and
origin tag `plan.cc:88` raises an `UnexpectedEEException` whose message
is exactly `"bad plan id 7 plan.cc:88\n"`: the values' text
representations in order, a single space before the origin tag inserted
by the helper, and a trailing newline appended by the helper. -/
theorem streamed_raise_message :
    message (throwUnexpectedEEExceptionStreamed
        ["bad plan id", " ", Nat.repr 7] "plan.cc" 88) =
      "bad plan id 7 plan.cc:88\n" ∧
    getType (throwUnexpectedEEExceptionStreamed
        ["bad plan id", " ", Nat.repr 7] "plan.cc" 88) =
      VOLT_EE_EXCEPTION_TYPE_EEEXCEPTION := by
  exact ⟨by decide, rfl⟩
